import Mathlib

/-!
Shallow embedding of `src/ReportGenerator.refactored.js`.

The JavaScript class `ReportGenerator` stores a database reference in its
constructor and exposes `generateReport(reportType, user, items)`, which
delegates to three helpers: `_getProcessedItems` (role-based selection and
annotation), a `reduce` computing the total, and two format-specific
renderers `_generateCsvReport` / `_generateHtmlReport`.

Items carry `id`, `name` and `value`; the ADMIN branch spreads each item and
attaches a boolean `priority` field, the USER branch keeps items unchanged
(so `priority` stays absent, modelled as `none`), any other role yields the
empty list.  Strings are built exactly as the template literals do,
including the space in `<tr ${style}>` and the final `String.trim()`.
-/

structure User where
  name : String
  role : String
deriving Repr, DecidableEq

structure Item where
  id : Int
  name : String
  value : Int
deriving Repr, DecidableEq

/-- A processed item: the spread of an `Item` plus the optional `priority`
field added in the ADMIN branch (`none` models an absent field). -/
structure PItem where
  id : Int
  name : String
  value : Int
  priority : Option Bool
deriving Repr, DecidableEq

def USER_VALUE_LIMIT : Int := 500

def ADMIN_PRIORITY_LIMIT : Int := 1000

/-- `_getProcessedItems(user, items)` from the source. -/
def getProcessedItems (user : User) (items : List Item) : List PItem :=
  if user.role = "ADMIN" then
    items.map (fun item =>
      { id := item.id, name := item.name, value := item.value,
        priority := some (decide (item.value > ADMIN_PRIORITY_LIMIT)) })
  else if user.role = "USER" then
    (items.filter (fun item => decide (item.value ≤ USER_VALUE_LIMIT))).map
      (fun item =>
        { id := item.id, name := item.name, value := item.value,
          priority := none })
  else
    []

/-- JavaScript `String.prototype.trim()`: strip leading and trailing
whitespace (for the characters occurring here, `Char.isWhitespace`
coincides with the JS WhiteSpace/LineTerminator classes). -/
def jsTrim (s : String) : String :=
  String.mk (((s.toList.dropWhile Char.isWhitespace).reverse.dropWhile
    Char.isWhitespace).reverse)

/-- `_generateCsvReport(user, items, total)` from the source. -/
def generateCsvReport (user : User) (items : List PItem) (total : Int) :
    String :=
  let header := "ID,NOME,VALOR,USUARIO\n"
  let body := items.foldl (fun report item =>
    report ++ toString item.id ++ "," ++ item.name ++ "," ++
      toString item.value ++ "," ++ user.name ++ "\n") header
  jsTrim (body ++ "\nTotal,,\n" ++ (toString total ++ ",,\n"))

/-- The style attribute string for one HTML row: `item.priority` is truthy
exactly when it is `some true`. -/
def rowStyle (priority : Option Bool) : String :=
  match priority with
  | some true => "style=\"font-weight:bold;\""
  | _ => ""

/-- `_generateHtmlReport(user, items, total)` from the source. -/
def generateHtmlReport (user : User) (items : List PItem) (total : Int) :
    String :=
  let header := "<html><body>\n" ++ "<h1>Relatório</h1>\n" ++
    ("<h2>Usuário: " ++ user.name ++ "</h2>\n") ++ "<table>\n" ++
    "<tr><th>ID</th><th>Nome</th><th>Valor</th></tr>\n"
  let body := items.foldl (fun report item =>
    report ++ ("<tr " ++ rowStyle item.priority ++ "><td>" ++
      toString item.id ++ "</td><td>" ++ item.name ++ "</td><td>" ++
      toString item.value ++ "</td></tr>\n")) header
  jsTrim (body ++ "</table>\n" ++
    ("<h3>Total: " ++ toString total ++ "</h3>\n") ++ "</body></html>\n")

/-- The `ReportGenerator` class: the constructor stores the database
reference and nothing else. -/
structure ReportGenerator (DB : Type) where
  db : DB

/-- `generateReport(reportType, user, items)` from the source: process the
items, total them with `reduce`, dispatch on the format. -/
def ReportGenerator.generateReport {DB : Type} (g : ReportGenerator DB)
    (reportType : String) (user : User) (items : List Item) : String :=
  let processedItems := getProcessedItems user items
  let total := processedItems.foldl (fun sum item => sum + item.value) 0
  if reportType = "CSV" then
    generateCsvReport user processedItems total
  else if reportType = "HTML" then
    generateHtmlReport user processedItems total
  else
    ""

/-- The `total` local of `generateReport`, named for the statements. -/
def reportTotal (user : User) (items : List Item) : Int :=
  (getProcessedItems user items).foldl (fun sum item => sum + item.value) 0

/-- `charsStartWith pat s` is true when `pat` is an initial segment of
`s`. -/
def charsStartWith : List Char → List Char → Bool
  | [], _ => true
  | _ :: _, [] => false
  | p :: ps, c :: cs => p = c && charsStartWith ps cs

/-- `charsContain pat s` is true when `pat` occurs contiguously in `s`. -/
def charsContain (pat : List Char) : List Char → Bool
  | [] => pat.isEmpty
  | c :: cs => charsStartWith pat (c :: cs) || charsContain pat cs

/-- Substring test used to state "the output contains ...". -/
def strContains (s pat : String) : Bool :=
  charsContain pat.toList s.toList

/-- Erase the `priority` annotation of a processed item, keeping `id`,
`name` and `value`. -/
def stripPriority (p : PItem) : PItem :=
  { id := p.id, name := p.name, value := p.value, priority := none }

lemma foldl_add_value (ps : List PItem) (a : Int) :
    ps.foldl (fun sum it => sum + it.value) a
      = a + (ps.map (fun it => it.value)).sum := by
  induction ps generalizing a with
  | nil => simp
  | cons x xs ih => simp [List.foldl_cons, ih, add_assoc]

lemma getProcessedItems_user_eq (u : User) (items : List Item)
    (h : u.role = "USER") :
    getProcessedItems u items
      = (items.filter (fun it => decide (it.value ≤ USER_VALUE_LIMIT))).map
          (fun it =>
            { id := it.id, name := it.name, value := it.value,
              priority := none }) := by
  simp [getProcessedItems, h]

lemma getProcessedItems_admin_eq (u : User) (items : List Item)
    (h : u.role = "ADMIN") :
    getProcessedItems u items
      = items.map (fun it =>
          { id := it.id, name := it.name, value := it.value,
            priority := some (decide (it.value > ADMIN_PRIORITY_LIMIT)) }) := by
  simp [getProcessedItems, h]

lemma getProcessedItems_other_eq (u : User) (items : List Item)
    (h1 : u.role ≠ "ADMIN") (h2 : u.role ≠ "USER") :
    getProcessedItems u items = [] := by
  simp [getProcessedItems, h1, h2]

/-- C1: for a USER-role user, the processed item set is exactly the
subsequence of input items with value ≤ 500 in input order, with no
priority annotation; consequently the report (in any format) is unchanged
when the input is replaced by that filtered subsequence, so no item with
value > 500 reaches the USER-role output. -/
theorem user_processed_is_low_value_filter {DB : Type}
    (g : ReportGenerator DB) (u : User) (items : List Item)
    (h : u.role = "USER") :
    getProcessedItems u items
      = (items.filter (fun it => decide (it.value ≤ USER_VALUE_LIMIT))).map
          (fun it =>
            { id := it.id, name := it.name, value := it.value,
              priority := none }) ∧
    (∀ p ∈ getProcessedItems u items,
      p.value ≤ USER_VALUE_LIMIT ∧ p.priority = none) ∧
    (∀ fmt, g.generateReport fmt u items
        = g.generateReport fmt u
            (items.filter (fun it => decide (it.value ≤ USER_VALUE_LIMIT)))) := by
  have he := getProcessedItems_user_eq u items h
  refine ⟨he, ?_, ?_⟩
  · intro p hp
    rw [he] at hp
    simp only [List.mem_map, List.mem_filter] at hp
    obtain ⟨it, ⟨_, hv⟩, rfl⟩ := hp
    exact ⟨by simpa using hv, rfl⟩
  · intro fmt
    have hpf : getProcessedItems u
        (items.filter (fun it => decide (it.value ≤ USER_VALUE_LIMIT)))
        = getProcessedItems u items := by
      rw [he, getProcessedItems_user_eq u _ h, List.filter_filter]
      simp
    simp only [ReportGenerator.generateReport, hpf]

/-- C1 witness: the USER theorem at Alice with items of values 100 and
600. -/
theorem user_processed_is_low_value_filter_witness :
    (User.mk "Alice" "USER").role = "USER" ∧
    getProcessedItems (User.mk "Alice" "USER")
        [Item.mk 1 "A" 100, Item.mk 2 "B" 600]
      = [PItem.mk 1 "A" 100 none] := by
  refine ⟨rfl, ?_⟩
  have h := (user_processed_is_low_value_filter
    (⟨()⟩ : ReportGenerator Unit) (User.mk "Alice" "USER")
    [Item.mk 1 "A" 100, Item.mk 2 "B" 600] rfl).1
  exact h.trans (by decide)

/-- C2: for an ADMIN-role user, the processed set is the input list mapped
item-by-item (same size and order, same id, name and value), each item
annotated with priority = true exactly when its value exceeds 1000 and
false otherwise. -/
theorem admin_processed_annotates_all (u : User) (items : List Item)
    (h : u.role = "ADMIN") :
    getProcessedItems u items
      = items.map (fun it =>
          { id := it.id, name := it.name, value := it.value,
            priority := some (decide (it.value > ADMIN_PRIORITY_LIMIT)) }) ∧
    (getProcessedItems u items).length = items.length ∧
    ∀ p ∈ getProcessedItems u items,
      p.priority = some (decide (p.value > (1000 : Int))) := by
  have he := getProcessedItems_admin_eq u items h
  refine ⟨he, by rw [he, List.length_map], ?_⟩
  intro p hp
  rw [he] at hp
  simp only [List.mem_map] at hp
  obtain ⟨it, _, rfl⟩ := hp
  rfl

/-- C2 witness: the ADMIN theorem at Bob with items of values 1500 and
200. -/
theorem admin_processed_annotates_all_witness :
    (User.mk "Bob" "ADMIN").role = "ADMIN" ∧
    getProcessedItems (User.mk "Bob" "ADMIN")
        [Item.mk 1 "X" 1500, Item.mk 2 "Y" 200]
      = [PItem.mk 1 "X" 1500 (some true), PItem.mk 2 "Y" 200 (some false)] := by
  refine ⟨rfl, ?_⟩
  have h := (admin_processed_annotates_all (User.mk "Bob" "ADMIN")
    [Item.mk 1 "X" 1500, Item.mk 2 "Y" 200] rfl).1
  exact h.trans (by decide)

/-- C10: for every user, `_getProcessedItems` distributes over list
concatenation, and maps the empty list to the empty list. -/
theorem getProcessedItems_append_hom (u : User) (xs ys : List Item) :
    getProcessedItems u (xs ++ ys)
      = getProcessedItems u xs ++ getProcessedItems u ys ∧
    getProcessedItems u ([] : List Item) = [] := by
  constructor
  · by_cases h1 : u.role = "ADMIN"
    · simp [getProcessedItems, h1]
    · by_cases h2 : u.role = "USER"
      · simp [getProcessedItems, h1, h2, List.filter_append]
      · simp [getProcessedItems, h1, h2]
  · by_cases h1 : u.role = "ADMIN"
    · simp [getProcessedItems, h1]
    · by_cases h2 : u.role = "USER"
      · simp [getProcessedItems, h1, h2]
      · simp [getProcessedItems, h1, h2]

/-- C3: for every format, user and item list, the total used by
`generateReport` is the sum of `value` over exactly the processed item set
(0 when that set is empty), and the one total is what both the CSV and the
HTML renderers receive. -/
theorem total_is_sum_over_processed {DB : Type} (g : ReportGenerator DB)
    (u : User) (items : List Item) :
    reportTotal u items
      = ((getProcessedItems u items).map (fun it => it.value)).sum ∧
    (getProcessedItems u items = [] → reportTotal u items = 0) ∧
    g.generateReport "CSV" u items
      = generateCsvReport u (getProcessedItems u items) (reportTotal u items) ∧
    g.generateReport "HTML" u items
      = generateHtmlReport u (getProcessedItems u items) (reportTotal u items) := by
  refine ⟨?_, ?_, ?_, ?_⟩
  · rw [reportTotal, foldl_add_value, zero_add]
  · intro h
    rw [reportTotal, h]
    rfl
  · simp [ReportGenerator.generateReport, reportTotal]
  · simp [ReportGenerator.generateReport, reportTotal]

/-- C3 witness: the theorem at a GUEST user, whose processed set is empty,
so the total is 0. -/
theorem total_is_sum_over_processed_witness :
    getProcessedItems (User.mk "G" "GUEST") [Item.mk 1 "A" 9999] = [] ∧
    reportTotal (User.mk "G" "GUEST") [Item.mk 1 "A" 9999] = 0 :=
  ⟨rfl, (total_is_sum_over_processed (⟨()⟩ : ReportGenerator Unit)
    (User.mk "G" "GUEST") [Item.mk 1 "A" 9999]).2.1 rfl⟩

/-- C4: for a user whose role is neither ADMIN nor USER, the processed set
is empty and the total is 0; the CSV output is exactly the header followed
by the `Total,,` and `0,,` footer lines, and the HTML output is the
rendering of an empty table body. -/
theorem unrecognized_role_empty_report {DB : Type} (g : ReportGenerator DB)
    (u : User) (items : List Item) (h1 : u.role ≠ "ADMIN")
    (h2 : u.role ≠ "USER") :
    getProcessedItems u items = [] ∧
    reportTotal u items = 0 ∧
    g.generateReport "CSV" u items = "ID,NOME,VALOR,USUARIO\n\nTotal,,\n0,," ∧
    g.generateReport "HTML" u items = generateHtmlReport u [] 0 := by
  have hp := getProcessedItems_other_eq u items h1 h2
  refine ⟨hp, ?_, ?_, ?_⟩
  · rw [reportTotal, hp]
    rfl
  · simp only [ReportGenerator.generateReport, hp]
    rfl
  · simp only [ReportGenerator.generateReport, hp]
    rfl

/-- C4 witness: the theorem at a GUEST user with one item. -/
theorem unrecognized_role_empty_report_witness :
    ((User.mk "G" "GUEST").role ≠ "ADMIN" ∧ (User.mk "G" "GUEST").role ≠ "USER") ∧
    (⟨()⟩ : ReportGenerator Unit).generateReport "CSV" (User.mk "G" "GUEST")
        [Item.mk 1 "A" 9999]
      = "ID,NOME,VALOR,USUARIO\n\nTotal,,\n0,," :=
  ⟨⟨by decide, by decide⟩,
    (unrecognized_role_empty_report (⟨()⟩ : ReportGenerator Unit)
      (User.mk "G" "GUEST") [Item.mk 1 "A" 9999] (by decide) (by decide)).2.2.1⟩

/-- C5: for every user and item list, any format other than "CSV" and
"HTML" makes `generateReport` return the empty string. -/
theorem unknown_format_empty_string {DB : Type} (g : ReportGenerator DB)
    (fmt : String) (u : User) (items : List Item) (h1 : fmt ≠ "CSV")
    (h2 : fmt ≠ "HTML") :
    g.generateReport fmt u items = "" := by
  simp [ReportGenerator.generateReport, h1, h2]

/-- C5 witness: the theorem at format "XML". -/
theorem unknown_format_empty_string_witness :
    (("XML" : String) ≠ "CSV" ∧ ("XML" : String) ≠ "HTML") ∧
    (⟨()⟩ : ReportGenerator Unit).generateReport "XML" (User.mk "A" "USER")
        [Item.mk 1 "A" 1] = "" :=
  ⟨⟨by decide, by decide⟩,
    unknown_format_empty_string (⟨()⟩ : ReportGenerator Unit) "XML"
      (User.mk "A" "USER") [Item.mk 1 "A" 1] (by decide) (by decide)⟩

/-- C6: the Alice/USER CSV scenario returns exactly the expected string:
item 2 is filtered out, the total is 100 and the trailing newline is
trimmed. -/
theorem csv_scenario_alice :
    (⟨()⟩ : ReportGenerator Unit).generateReport "CSV"
        (User.mk "Alice" "USER") [Item.mk 1 "A" 100, Item.mk 2 "B" 600]
      = "ID,NOME,VALOR,USUARIO\n1,A,100,Alice\n\nTotal,,\n100,," := by
  decide

/-- C7: the Bob/ADMIN HTML scenario output contains a table row for item X
carrying the bold-style attribute, and contains `<h3>Total: 1500</h3>`. -/
theorem html_scenario_bob :
    strContains
        ((⟨()⟩ : ReportGenerator Unit).generateReport "HTML"
          (User.mk "Bob" "ADMIN") [Item.mk 1 "X" 1500])
        "<tr style=\"font-weight:bold;\"><td>1</td><td>X</td><td>1500</td></tr>"
      = true ∧
    strContains
        ((⟨()⟩ : ReportGenerator Unit).generateReport "HTML"
          (User.mk "Bob" "ADMIN") [Item.mk 1 "X" 1500])
        "<h3>Total: 1500</h3>"
      = true := by
  constructor
  · decide
  · decide

lemma csv_ignores_priority (u : User) (ps : List PItem) (t : Int) :
    generateCsvReport u (ps.map stripPriority) t = generateCsvReport u ps t := by
  simp [generateCsvReport, List.foldl_map, stripPriority]

lemma foldl_value_ignores_priority (ps : List PItem) :
    (ps.map stripPriority).foldl (fun sum it => sum + it.value) 0
      = ps.foldl (fun sum it => sum + it.value) 0 := by
  simp [List.foldl_map, stripPriority]

/-- C8: the priority annotation is attached only in the ADMIN branch
(every non-ADMIN processed item has no annotation); for an ADMIN item list,
erasing the annotation changes neither the CSV rendering nor the total, and
erasing it recovers exactly the full input list, so priority never affects
membership in the processed set. -/
theorem priority_only_affects_styling (u : User) (items : List Item)
    (h : u.role = "ADMIN") :
    (∀ v : User, v.role ≠ "ADMIN" →
      ∀ p ∈ getProcessedItems v items, p.priority = none) ∧
    (∀ t, generateCsvReport u ((getProcessedItems u items).map stripPriority) t
        = generateCsvReport u (getProcessedItems u items) t) ∧
    ((getProcessedItems u items).map stripPriority).foldl
        (fun sum it => sum + it.value) 0
      = (getProcessedItems u items).foldl (fun sum it => sum + it.value) 0 ∧
    (getProcessedItems u items).map stripPriority
      = items.map (fun it =>
          { id := it.id, name := it.name, value := it.value,
            priority := none }) := by
  refine ⟨?_, fun t => csv_ignores_priority u _ t,
    foldl_value_ignores_priority _, ?_⟩
  · intro v hv p hp
    by_cases hv2 : v.role = "USER"
    · rw [getProcessedItems_user_eq v items hv2] at hp
      simp only [List.mem_map] at hp
      obtain ⟨it, _, rfl⟩ := hp
      rfl
    · rw [getProcessedItems_other_eq v items hv hv2] at hp
      exact absurd hp (List.not_mem_nil p)
  · rw [getProcessedItems_admin_eq u items h, List.map_map]
    rfl

/-- C8 witness: the theorem at Bob/ADMIN with one high-value item. -/
theorem priority_only_affects_styling_witness :
    (User.mk "Bob" "ADMIN").role = "ADMIN" ∧
    (getProcessedItems (User.mk "Bob" "ADMIN") [Item.mk 1 "X" 1500]).map
        stripPriority
      = [PItem.mk 1 "X" 1500 none] := by
  refine ⟨rfl, ?_⟩
  have h := (priority_only_affects_styling (User.mk "Bob" "ADMIN")
    [Item.mk 1 "X" 1500] rfl).2.2.2
  exact h.trans (by decide)

/-- C9: `generateReport` is a pure, deterministic function of
(format, user, items): the same call yields the same string, and two
generators constructed with different databases (even of different types)
produce identical output on identical arguments. -/
theorem generateReport_pure_db_independent {D1 D2 : Type}
    (g1 : ReportGenerator D1) (g2 : ReportGenerator D2) (fmt : String)
    (u : User) (items : List Item) :
    g1.generateReport fmt u items = g1.generateReport fmt u items ∧
    g1.generateReport fmt u items = g2.generateReport fmt u items :=
  ⟨rfl, rfl⟩
